import Mathlib

/-!
Shallow embedding of the order-lifecycle core of `src/bot.py`:
the persisted order ledger (a JSON list of records), the hourly rate
limiter, the per-client conversational session state, and the buyer /
operator handlers.  Timestamps stored in records are kept as the ISO
strings the code stores; where the code compares parsed datetimes the
embedding is parameterised by a parsing function `String → Option Int`
(absolute seconds), standing for `datetime.fromisoformat` plus
localisation (`parse_iso_datetime`, bot.py lines 59-68).  Fallible I/O
(saving the ledger, sending a Telegram message) is modelled by boolean
oracles passed to each handler.
-/

namespace Bot

/-- Session-state constant (bot.py line 42). -/
def AWAITING_FIO : String := "awaiting_fio"

/-- Session-state constant (bot.py line 43). -/
def AWAITING_DOB : String := "awaiting_dob"

/-- Session-state constant (bot.py line 44). -/
def AWAITING_PHOTO : String := "awaiting_photo"

/-- Order-status literal written by `add_request` (bot.py line 144). -/
def ST_WAITING_REQ : String := "waiting_req"

/-- Order-status literal written on an accepted ID photo and by `/send_req`. -/
def ST_WAITING_PAYMENT : String := "waiting_payment"

/-- Order-status literal written on a forwarded payment proof. -/
def ST_WAITING_CONFIRM : String := "waiting_confirm"

/-- Order-status literal written by `/confirm`. -/
def ST_COMPLETED : String := "completed"

/-- Default of the env-configured `MAX_REQUESTS_PER_HOUR` (bot.py line 30). -/
def MAX_REQUESTS_PER_HOUR : Nat := 10

/-- One hour, in the seconds timescale of the parsed timestamps
(`timedelta(hours=1)`, bot.py line 161). -/
def ONE_HOUR : Int := 3600

/-- Sentinel username used when Telegram supplies none (bot.py line 137). -/
def NO_USERNAME : String := "немає"

/-- The tariff catalog `TARIFFS` (bot.py lines 34-40). -/
def TARIFFS : List (String × String) :=
  [("1_day", "1 день — 20₴"),
   ("30_days", "30 днів — 70₴"),
   ("90_days", "90 днів — 150₴"),
   ("180_days", "180 днів — 190₴"),
   ("forever", "Назавжди — 250₴")]

/-- Python `TARIFFS.get(key)`: lookup returning `none` when absent. -/
def tariffsGet (k : String) : Option String :=
  (TARIFFS.find? (fun p => p.1 == k)).map (fun p => p.2)

/-- One persisted order record (the JSON dicts built by `add_request`,
bot.py lines 141-150).  `status_updated_at` is absent at creation and
only written by `update_order_status`. -/
structure OrderRecord where
  client_id : String
  username : String
  status : String
  created_at : String
  status_updated_at : Option String := none
  tariff_key : Option String := none
  tariff_text : Option String := none
  fio : Option String := none
  dob : Option String := none
deriving Repr, DecidableEq

/-- `get_last_order_for_client` (bot.py lines 112-119): reverse scan of
the ledger, first record whose `client_id` matches wins. -/
def get_last_order_for_client (orders : List OrderRecord) (cid : String) :
    Option OrderRecord :=
  orders.reverse.find? (fun r => r.client_id == cid)

/-- `get_order_status` (bot.py lines 121-124). -/
def get_order_status (orders : List OrderRecord) (cid : String) : Option String :=
  (get_last_order_for_client orders cid).map (fun r => r.status)

/-- Recursive characterisation of the reverse scan: the match nearest the
end of the list wins.  Used only in proofs; proved equal to
`get_last_order_for_client` below. -/
def findLast (cid : String) : List OrderRecord → Option OrderRecord
  | [] => none
  | r :: rs =>
    match findLast cid rs with
    | some x => some x
    | none => if r.client_id == cid then some r else none

/-- The in-place mutation loop of `update_order_status` (bot.py lines
126-135): walk `reversed(orders)`, rewrite the first matching record,
leave everything else untouched; `none` when no record matches. -/
def updateLast (cid st now : String) : List OrderRecord → Option (List OrderRecord)
  | [] => none
  | r :: rs =>
    match updateLast cid st now rs with
    | some rs2 => some (r :: rs2)
    | none =>
      if r.client_id == cid then
        some ({ r with status := st, status_updated_at := some now } :: rs)
      else none

/-- `update_order_status` (bot.py lines 126-135).  `saveOk` is the
outcome of the final `save_orders`; when no record matches the function
returns `False` without attempting a save, and a failed save leaves the
durable ledger as it was. -/
def update_order_status (saveOk : Bool) (now : String) (orders : List OrderRecord)
    (cid st : String) : List OrderRecord × Bool :=
  match updateLast cid st now orders with
  | none => (orders, false)
  | some orders2 => if saveOk then (orders2, true) else (orders, false)

/-- The two-field rewrite `update_order_status` performs on the current
record (bot.py lines 132-133). -/
def withStatus (r : OrderRecord) (st now : String) : OrderRecord :=
  { r with status := st, status_updated_at := some now }

/-- The record dict built by `add_request` (bot.py lines 141-150). -/
def mkRequest (cid username now : String) (tariff_key fio dob : Option String) :
    OrderRecord :=
  { client_id := cid,
    username := if username = "" then NO_USERNAME else username,
    status := ST_WAITING_REQ,
    created_at := now,
    status_updated_at := none,
    tariff_key := tariff_key,
    tariff_text := tariff_key.bind tariffsGet,
    fio := fio,
    dob := dob }

/-- `add_request` (bot.py lines 137-152): append one record, then save;
returns the `save_orders` outcome. -/
def add_request (saveOk : Bool) (orders : List OrderRecord)
    (cid username now : String) (tariff_key fio dob : Option String) :
    List OrderRecord × Bool :=
  (if saveOk then orders ++ [mkRequest cid username now tariff_key fio dob]
   else orders, saveOk)

/-- ASCII whitespace, as stripped by Python `str.strip()` on the inputs
this bot sees. -/
def isSpaceChar (c : Char) : Bool :=
  c = ' ' || c = '\t' || c = '\n' || c = '\r'

/-- Strip leading and trailing whitespace from a character list. -/
def stripChars (cs : List Char) : List Char :=
  ((cs.dropWhile isSpaceChar).reverse.dropWhile isSpaceChar).reverse

/-- Python `str.strip()`. -/
def pyStrip (s : String) : String :=
  String.mk (stripChars s.toList)

/-- Decimal digit value of a character. -/
def digitVal (c : Char) : Option Nat :=
  if c = '0' then some 0
  else if c = '1' then some 1
  else if c = '2' then some 2
  else if c = '3' then some 3
  else if c = '4' then some 4
  else if c = '5' then some 5
  else if c = '6' then some 6
  else if c = '7' then some 7
  else if c = '8' then some 8
  else if c = '9' then some 9
  else none

/-- Accumulate decimal digits; `none` on the first non-digit. -/
def digitsToNat (acc : Nat) : List Char → Option Nat
  | [] => some acc
  | c :: cs =>
    match digitVal c with
    | some d => digitsToNat (acc * 10 + d) cs
    | none => none

/-- Parse an optionally signed, non-empty decimal numeral. -/
def parseDecimal : List Char → Option Int
  | [] => none
  | c :: rest =>
    if c = '-' then
      match rest with
      | [] => none
      | _ => (digitsToNat 0 rest).map (fun v => - (v : Int))
    else if c = '+' then
      match rest with
      | [] => none
      | _ => (digitsToNat 0 rest).map (fun v => (v : Int))
    else (digitsToNat 0 (c :: rest)).map (fun v => (v : Int))

/-- Python truthiness of an optional string field, as tested by
`all([last_order.get("fio"), ...])` (bot.py line 329): present and
non-empty. -/
def truthy (o : Option String) : Bool :=
  match o with
  | none => false
  | some s => s ≠ ""

/-- Contribution of one record to the counter of `check_request_limit`
(the loop body, bot.py lines 165-173): records of other clients are
skipped (`continue`), records whose `created_at` does not parse are
skipped, records strictly newer than `one_hour_ago` count one. -/
def recentHit (parse : String → Option Int) (one_hour_ago : Int) (cid : String)
    (r : OrderRecord) : Nat :=
  if r.client_id ≠ cid then 0
  else
    match parse r.created_at with
    | some t => if one_hour_ago < t then 1 else 0
    | none => 0

/-- The counting loop of `check_request_limit` (bot.py lines 165-173):
sum of the per-record contributions, in scan order. -/
def countRecent (parse : String → Option Int) (one_hour_ago : Int) (cid : String) :
    List OrderRecord → Nat
  | [] => 0
  | r :: rs => recentHit parse one_hour_ago cid r + countRecent parse one_hour_ago cid rs

/-- Membership of one record in the trailing one-hour window, worded
after the specification: the record belongs to the client, its
`created_at` parses, and the parsed instant lies strictly inside the
window (a record exactly one hour old is excluded). -/
def inWindow (parse : String → Option Int) (now : Int) (cid : String)
    (r : OrderRecord) : Bool :=
  r.client_id == cid &&
    match parse r.created_at with
    | some t => decide (now - ONE_HOUR < t)
    | none => false

/-- Body of `check_request_limit` inside the `try` (bot.py lines 159-175). -/
def check_request_limit_core (parse : String → Option Int) (now : Int)
    (ceiling : Nat) (orders : List OrderRecord) (cid : String) : Bool :=
  decide (countRecent parse (now - ONE_HOUR) cid orders < ceiling)

/-- The `except` clause of `check_request_limit` (bot.py lines 177-179):
any internal failure of the body yields `True` (admit). -/
def failOpen (body : Except String Bool) : Bool :=
  match body with
  | Except.ok b => b
  | Except.error _ => true

/-- `check_request_limit` (bot.py lines 157-179): the counting body,
wrapped fail-open. -/
def check_request_limit (parse : String → Option Int) (now : Int) (ceiling : Nat)
    (orders : List OrderRecord) (cid : String) : Bool :=
  failOpen (Except.ok (check_request_limit_core parse now ceiling orders cid))

/-- On-disk effect of `save_orders` (bot.py lines 102-110):
`open(DATA_FILE, "w")` truncates the file at once, then `json.dump`
streams the serialised text chunk by chunk.  `prior` is the on-disk
content before the call; `failAt = some k` models an OS write error
after `k` chunks were written (the `except` path, returning `False`);
`failAt = none` is the successful full rewrite. -/
def save_orders_disk (prior : String) (chunks : List String)
    (failAt : Option Nat) : String × Bool :=
  match failAt with
  | none => (String.join chunks, true)
  | some k => (String.join (chunks.take k), false)

/-- The ephemeral `context.user_data` keys the order flow uses
(bot.py `select_tariff` / `handle_user_input`). -/
structure Session where
  order_state : Option String := none
  selected_tariff_key : Option String := none
  fio : Option String := none
  dob : Option String := none
deriving Repr, DecidableEq

/-- `context.user_data.clear()`. -/
def emptySession : Session := {}

/-- Every outbound message the embedded handlers can emit, one
constructor per distinct send site in bot.py; constructors prefixed
`op` go to the admin chat, `photoToOperator` / `docToOperator` are the
media forwards to the admin chat, everything else goes to the client. -/
inductive Eff where
  | askDob (cid : String)
  | askPhoto (cid : String)
  | saveErrorRetry (cid : String)
  | photoAsPhotoPlease (cid : String)
  | needFioDobFirst (cid : String)
  | photoReceived (cid : String)
  | idForwardFailedRetry (cid : String)
  | sendReceiptPlease (cid : String)
  | receiptChecking (cid : String)
  | receiptForwardFailedRetry (cid : String)
  | unexpectedMedia (cid : String)
  | photoToOperator (cid : String)
  | docToOperator (cid : String)
  | opUsageSendReq
  | opUsageConfirm
  | opIdNotNumber
  | opOrderNotFound (cid : String)
  | requisitesToClient (cid : String)
  | opRequisitesSentOk (cid : String)
  | opClientSendFailed
  | productLinkToClient (cid : String)
  | opPaymentConfirmedOk (cid : String)
deriving Repr, DecidableEq

/-- Whether an effect is addressed to the admin chat only. -/
def Eff.isToOperator : Eff → Bool
  | .photoToOperator _ => true
  | .docToOperator _ => true
  | .opUsageSendReq => true
  | .opUsageConfirm => true
  | .opIdNotNumber => true
  | .opOrderNotFound _ => true
  | .opRequisitesSentOk _ => true
  | .opClientSendFailed => true
  | .opPaymentConfirmedOk _ => true
  | _ => false

/-- Whether an effect is a photo forwarded to the operator channel. -/
def Eff.isPhotoToOperator : Eff → Bool
  | .photoToOperator _ => true
  | _ => false

/-- `handle_user_input` (bot.py lines 269-308).  `rawText` is the
message text (the code strips it first); `saveOk` is the outcome of the
`save_orders` inside `add_request`.  Returns the new session, the new
ledger and the replies sent, in order. -/
def handle_user_input (sess : Session) (rawText : String)
    (cid username now : String) (saveOk : Bool) (orders : List OrderRecord) :
    Session × List OrderRecord × List Eff :=
  match sess.order_state with
  | none => (sess, orders, [])
  | some st =>
    let text := pyStrip rawText
    if st = AWAITING_FIO then
      ({ sess with fio := some text, order_state := some AWAITING_DOB },
       orders, [Eff.askDob cid])
    else if st = AWAITING_DOB then
      let sess1 : Session := { sess with dob := some text }
      let res := add_request saveOk orders cid username now
        sess1.selected_tariff_key sess1.fio sess1.dob
      if res.2 = false then
        (emptySession, res.1, [Eff.saveErrorRetry cid])
      else
        ({ sess1 with order_state := some AWAITING_PHOTO }, res.1,
         [Eff.askPhoto cid])
    else
      (sess, orders, [])

/-- `handle_all_media` (bot.py lines 310-400).  `hasPhoto` /
`hasDocument` describe the inbound message; `sendOk` is the outcome of
the forward to the admin chat (the `try` around `send_photo` /
`send_document`); `saveOk` the outcome of the save inside
`update_order_status`. -/
def handle_all_media (sess : Session) (hasPhoto hasDocument : Bool)
    (cid username now : String) (sendOk saveOk : Bool)
    (orders : List OrderRecord) : Session × List OrderRecord × List Eff :=
  let status := get_order_status orders cid
  if sess.order_state = some AWAITING_PHOTO ∧ status = some ST_WAITING_REQ then
    if hasPhoto = false then
      (sess, orders, [Eff.photoAsPhotoPlease cid])
    else
      match get_last_order_for_client orders cid with
      | none =>
        ({ sess with order_state := some AWAITING_FIO }, orders,
         [Eff.needFioDobFirst cid])
      | some last_order =>
        if truthy last_order.fio && truthy last_order.dob &&
            truthy last_order.tariff_text then
          if sendOk then
            let res := update_order_status saveOk now orders cid ST_WAITING_PAYMENT
            (sess, res.1, [Eff.photoToOperator cid, Eff.photoReceived cid])
          else
            (sess, orders, [Eff.idForwardFailedRetry cid])
        else
          ({ sess with order_state := some AWAITING_FIO }, orders,
           [Eff.needFioDobFirst cid])
  else if status = some ST_WAITING_PAYMENT ∨ status = some ST_WAITING_CONFIRM then
    if hasPhoto = false ∧ hasDocument = false then
      (sess, orders, [Eff.sendReceiptPlease cid])
    else if sendOk then
      let fwd := if hasPhoto then Eff.photoToOperator cid else Eff.docToOperator cid
      let res := update_order_status saveOk now orders cid ST_WAITING_CONFIRM
      (sess, res.1, [fwd, Eff.receiptChecking cid])
    else
      (sess, orders, [Eff.receiptForwardFailedRetry cid])
  else
    (sess, orders, [Eff.unexpectedMedia cid])

/-- CPython `int(s)` on the arguments the admin commands receive
(bot.py line 416: `int(args[0].strip())`): strip whitespace, then parse
an optionally signed decimal integer, `none` on failure. -/
def pyInt (s : String) : Option Int :=
  parseDecimal (stripChars s.toList)

/-- `/send_req` = `send_requisites` (bot.py lines 405-436), after the
admin gate.  Returns the new ledger, whether the status transition was
committed, and the messages sent. -/
def send_requisites (args : List String) (orders : List OrderRecord)
    (now : String) (saveOk sendOk : Bool) :
    List OrderRecord × Bool × List Eff :=
  match args with
  | a0 :: _ :: _ =>
    match pyInt a0 with
    | none => (orders, false, [Eff.opIdNotNumber])
    | some n =>
      let cid := toString n
      let res := update_order_status saveOk now orders cid ST_WAITING_PAYMENT
      if res.2 = false then
        (orders, false, [Eff.opOrderNotFound cid])
      else if sendOk then
        (res.1, true, [Eff.requisitesToClient cid, Eff.opRequisitesSentOk cid])
      else
        (res.1, true, [Eff.opClientSendFailed])
  | _ => (orders, false, [Eff.opUsageSendReq])

/-- `/confirm` = `confirm_payment` (bot.py lines 438-476), after the
admin gate. -/
def confirm_payment (args : List String) (orders : List OrderRecord)
    (now : String) (saveOk sendOk : Bool) :
    List OrderRecord × Bool × List Eff :=
  match args with
  | a0 :: _ :: _ =>
    match pyInt a0 with
    | none => (orders, false, [Eff.opIdNotNumber])
    | some n =>
      let cid := toString n
      let res := update_order_status saveOk now orders cid ST_COMPLETED
      if res.2 = false then
        (orders, false, [Eff.opOrderNotFound cid])
      else if sendOk then
        (res.1, true, [Eff.productLinkToClient cid, Eff.opPaymentConfirmedOk cid])
      else
        (res.1, true, [Eff.opClientSendFailed])
  | _ => (orders, false, [Eff.opUsageConfirm])

/-! ## Concrete fixtures (used by witnesses and counterexamples) -/

/-- Fixture client id. -/
def cid7 : String := "7"

/-- Fixture username. -/
def userU : String := "u"

/-- Fixture clock strings (parse to 500 and 600 seconds). -/
def nowT : String := "500"

/-- Second fixture clock string. -/
def nowT2 : String := "600"

/-- Fixture second command argument. -/
def strX : String := "x"

/-- Fixture non-numeric command argument. -/
def strAbc : String := "abc"

/-- Fixture date-of-birth text. -/
def txtDob : String := "01.01.1990"

/-- Timestamp parser used in witnesses: a finite table of instants
(seconds); every other string fails to parse. -/
def toIntParse : String → Option Int := fun s =>
  if s = "100" then some 100
  else if s = "400" then some 400
  else if s = "500" then some 500
  else if s = "600" then some 600
  else none

/-- Fixture: a complete `waiting_req` record for client 7. -/
def recA : OrderRecord :=
  { client_id := cid7, username := userU, status := ST_WAITING_REQ,
    created_at := ("100"), tariff_key := some ("30_days"),
    tariff_text := tariffsGet ("30_days"), fio := some ("Jane Doe"),
    dob := some ("01.01.1990") }

/-- Fixture: a record of a different client (id 8). -/
def recB : OrderRecord :=
  { client_id := ("8"), username := ("u8"), status := ST_WAITING_REQ,
    created_at := ("200") }

/-- Fixture: a record of client 7 whose `created_at` parses to exactly
the lower boundary of the window used in the C3 witness. -/
def recBoundary : OrderRecord :=
  { client_id := cid7, username := NO_USERNAME, status := ST_WAITING_REQ,
    created_at := ("400") }

/-- Fixture: a record of client 7 whose `created_at` does not parse. -/
def recBad : OrderRecord :=
  { client_id := cid7, username := NO_USERNAME, status := ST_WAITING_REQ,
    created_at := ("zz") }

/-- Fixture session in the photo-collection stage, fully staged. -/
def sessPhoto : Session :=
  { order_state := some AWAITING_PHOTO, selected_tariff_key := some ("30_days"),
    fio := some ("Jane Doe"), dob := some ("01.01.1990") }

/-- Fixture session in the date-of-birth stage. -/
def sessDob : Session :=
  { order_state := some AWAITING_DOB, selected_tariff_key := some ("30_days"),
    fio := some ("Jane Doe") }

/-- Fixture prior on-disk ledger content for the C5 analysis. -/
def priorDisk : String := "[]"

/-- A second, different prior on-disk content. -/
def priorDisk2 : String := "[old]"

/-- Fixture serialised-output chunks emitted by a save. -/
def diskChunks : List String := ["[", "rec", "]"]

/-! ## Helper lemmas -/

/-- `findLast` over an append: a match in the right part wins. -/
theorem findLast_append (cid : String) (l1 l2 : List OrderRecord) :
    findLast cid (l1 ++ l2) =
      match findLast cid l2 with
      | some x => some x
      | none => findLast cid l1 := by
  induction l1 with
  | nil =>
    cases e : findLast cid l2 <;> simp [findLast, e]
  | cons a l1 ih =>
    cases e : findLast cid l2 with
    | some x =>
      rw [e] at ih
      simp at ih
      simp [List.cons_append, findLast, List.append_eq, ih, e]
    | none =>
      rw [e] at ih
      simp at ih
      simp [List.cons_append, findLast, List.append_eq, ih, e]

/-- `findLast` misses exactly on lists without a matching record. -/
theorem findLast_eq_none (cid : String) (l : List OrderRecord)
    (h : ∀ x ∈ l, x.client_id ≠ cid) : findLast cid l = none := by
  induction l with
  | nil => rfl
  | cons a l ih =>
    have ha : a.client_id ≠ cid := h a (by simp)
    have hl : ∀ x ∈ l, x.client_id ≠ cid := fun x hx => h x (by simp [hx])
    simp only [findLast, ih hl]
    simp [ha]

/-- Unfolding of `List.find?` over an append. -/
theorem find_q_append (p : OrderRecord → Bool) (l1 l2 : List OrderRecord) :
    (l1 ++ l2).find? p =
      match l1.find? p with
      | some x => some x
      | none => l2.find? p := by
  induction l1 with
  | nil => simp
  | cons a l1 ih =>
    by_cases h : p a
    · simp [List.find?, h]
    · simp only [List.cons_append, List.find?] at *
      simp only [h] at *
      exact ih

/-- The source reverse scan agrees with the recursive characterisation. -/
theorem get_last_eq_findLast (orders : List OrderRecord) (cid : String) :
    get_last_order_for_client orders cid = findLast cid orders := by
  induction orders with
  | nil => rfl
  | cons r rs ih =>
    unfold get_last_order_for_client at *
    simp only [List.reverse_cons, findLast]
    rw [find_q_append]
    rw [ih]
    cases findLast cid rs with
    | some x => rfl
    | none =>
      by_cases hc : r.client_id == cid
      · simp [List.find?, hc]
      · simp only [List.find?, hc]
        simp at hc
        simp [hc]

/-- `updateLast` finds a record to rewrite exactly when the reverse scan
finds one. -/
theorem updateLast_none_iff (cid st now : String) (l : List OrderRecord) :
    updateLast cid st now l = none ↔ findLast cid l = none := by
  induction l with
  | nil => simp [updateLast, findLast]
  | cons r rs ih =>
    unfold updateLast findLast
    cases e : updateLast cid st now rs with
    | some l2 =>
      have : findLast cid rs ≠ none := by
        intro hn
        rw [← ih] at hn
        rw [e] at hn
        exact Option.noConfusion hn
      cases e2 : findLast cid rs with
      | some x => simp
      | none => exact absurd e2 this
    | none =>
      have h2 : findLast cid rs = none := by rw [← ih]; exact e
      rw [h2]
      by_cases hc : r.client_id == cid
      · simp [hc]
      · simp [hc]

/-- When the reverse scan finds record `r`, `updateLast` succeeds and in
the resulting ledger the current record for `cid` is `r` with the new
status and the new `status_updated_at`. -/
theorem updateLast_of_findLast (cid st now : String) (l : List OrderRecord)
    (r : OrderRecord) (h : findLast cid l = some r) :
    ∃ l2, updateLast cid st now l = some l2 ∧
      findLast cid l2 = some { r with status := st, status_updated_at := some now } := by
  induction l with
  | nil => exact absurd h (by simp [findLast])
  | cons x xs ih =>
    unfold findLast at h
    cases e : findLast cid xs with
    | some y =>
      rw [e] at h
      have hy : y = r := by simpa using h
      subst hy
      obtain ⟨l2, hu, hf⟩ := ih e
      refine ⟨x :: l2, ?_, ?_⟩
      · unfold updateLast
        rw [hu]
      · unfold findLast
        rw [hf]
    | none =>
      rw [e] at h
      by_cases hc : x.client_id == cid
      · simp only [hc, if_true] at h
        have hx : x = r := by simpa using h
        subst hx
        have hun : updateLast cid st now xs = none := (updateLast_none_iff cid st now xs).mpr e
        refine ⟨{ x with status := st, status_updated_at := some now } :: xs, ?_, ?_⟩
        · unfold updateLast
          rw [hun]
          simp [hc]
        · unfold findLast
          rw [e]
          simpa using hc
      · simp [hc] at h

/-- `update_order_status` with no matching record: returns `False` and
leaves the ledger untouched, whatever the save oracle says. -/
theorem update_order_status_not_found (saveOk : Bool) (now : String)
    (orders : List OrderRecord) (cid st : String)
    (h : get_last_order_for_client orders cid = none) :
    update_order_status saveOk now orders cid st = (orders, false) := by
  unfold update_order_status
  rw [get_last_eq_findLast] at h
  rw [(updateLast_none_iff cid st now orders).mpr h]

/-- `update_order_status` with a matching record and a successful save:
returns `True` and the current record of the result carries the new
status and timestamp. -/
theorem update_order_status_found (now : String) (orders : List OrderRecord)
    (cid st : String) (r : OrderRecord)
    (h : get_last_order_for_client orders cid = some r) :
    (update_order_status true now orders cid st).2 = true ∧
      get_last_order_for_client (update_order_status true now orders cid st).1 cid
        = some { r with status := st, status_updated_at := some now } := by
  rw [get_last_eq_findLast] at h
  obtain ⟨l2, hu, hf⟩ := updateLast_of_findLast cid st now orders r h
  unfold update_order_status
  rw [hu]
  refine ⟨rfl, ?_⟩
  rw [get_last_eq_findLast]
  exact hf

/-- The counting loop distributes over append. -/
theorem countRecent_append (parse : String → Option Int) (oha : Int) (cid : String)
    (l1 l2 : List OrderRecord) :
    countRecent parse oha cid (l1 ++ l2) =
      countRecent parse oha cid l1 + countRecent parse oha cid l2 := by
  induction l1 with
  | nil => simp [countRecent]
  | cons r rs ih =>
    simp only [List.cons_append, countRecent, List.append_eq]
    rw [ih]
    omega

/-- A record contributes one exactly when it is in-window. -/
theorem recentHit_eq_inWindow (parse : String → Option Int) (now : Int)
    (cid : String) (r : OrderRecord) :
    recentHit parse (now - ONE_HOUR) cid r =
      if inWindow parse now cid r then 1 else 0 := by
  unfold recentHit inWindow
  by_cases hc : r.client_id = cid
  · have hc2 : ¬ r.client_id ≠ cid := by simpa using hc
    rw [if_neg hc2]
    cases e : parse r.created_at with
    | none => simp [hc, e]
    | some t =>
      by_cases ht : now - ONE_HOUR < t
      · simp [hc, e, ht]
      · simp [hc, e, ht]
  · have hb : (r.client_id == cid) = false := by simpa using hc
    simp [hc, hb]

/-- The counting loop computes the number of in-window records. -/
theorem countRecent_eq_countP (parse : String → Option Int) (now : Int)
    (cid : String) (l : List OrderRecord) :
    countRecent parse (now - ONE_HOUR) cid l = l.countP (inWindow parse now cid) := by
  induction l with
  | nil => rfl
  | cons r rs ih =>
    simp only [countRecent, List.countP_cons, ih, recentHit_eq_inWindow]
    by_cases h : inWindow parse now cid r
    · simp [h]
      omega
    · simp [h]

/-! ## Claim theorems -/

/-- C1: `get_last_order_for_client` returns the most recently appended
record whose `client_id` matches — any record followed only by
other-client records is the result, however other clients' records are
interleaved before it — and returns `none` when no record of the client
exists in the ledger. -/
theorem find_current_last_match (pre post orders2 : List OrderRecord)
    (r : OrderRecord) (cid : String)
    (h1 : r.client_id = cid) (h2 : ∀ x ∈ post, x.client_id ≠ cid)
    (h3 : ∀ x ∈ orders2, x.client_id ≠ cid) :
    get_last_order_for_client (pre ++ r :: post) cid = some r ∧
    get_last_order_for_client orders2 cid = none := by
  constructor
  · rw [get_last_eq_findLast, findLast_append]
    have hpost : findLast cid post = none := findLast_eq_none cid post h2
    simp [findLast, hpost, h1]
  · rw [get_last_eq_findLast]
    exact findLast_eq_none cid orders2 h3

/-- Witness for C1 at a concrete interleaved ledger. -/
theorem find_current_last_match_witness :
    get_last_order_for_client ([recB] ++ recA :: [recB]) cid7 = some recA ∧
    get_last_order_for_client [recB] cid7 = none :=
  find_current_last_match [recB] [recB] [recB] recA cid7 (by decide) (by decide)
    (by decide)

/-- C3: the rate limiter admits exactly when the number of the client's
records strictly inside the trailing one-hour window is strictly below
the ceiling, and a record dated exactly one hour before the current
instant is excluded from the count (it does not change the decision). -/
theorem rate_limit_window (parse : String → Option Int) (now : Int) (ceiling : Nat)
    (orders : List OrderRecord) (cid : String) (b : OrderRecord)
    (hb : b.client_id = cid) (hbt : parse b.created_at = some (now - ONE_HOUR)) :
    (check_request_limit parse now ceiling orders cid = true ↔
      orders.countP (inWindow parse now cid) < ceiling) ∧
    check_request_limit parse now ceiling (b :: orders) cid =
      check_request_limit parse now ceiling orders cid := by
  have key : ∀ l : List OrderRecord, check_request_limit parse now ceiling l cid =
      decide (l.countP (inWindow parse now cid) < ceiling) := by
    intro l
    unfold check_request_limit failOpen check_request_limit_core
    rw [countRecent_eq_countP]
  constructor
  · rw [key]
    simp
  · rw [key, key]
    have hbw : inWindow parse now cid b = false := by
      unfold inWindow
      rw [hbt]
      simp [hb]
    simp [List.countP_cons, hbw]

/-- Witness for C3: a boundary record at exactly one hour of age leaves
the admission decision unchanged. -/
theorem rate_limit_window_witness :
    check_request_limit toIntParse 4000 2 (recBoundary :: []) cid7 =
      check_request_limit toIntParse 4000 2 [] cid7 :=
  (rate_limit_window toIntParse 4000 2 [] cid7 recBoundary (by decide) (by decide)).2

/-- C4: the rate limiter fails open — a record whose `created_at` does
not parse is skipped wherever it sits in the ledger (neither counted
nor aborting the scan over the remaining records), and any internal
failure of the guarded body yields admit. -/
theorem rate_limit_fail_open (parse : String → Option Int) (now : Int)
    (ceiling : Nat) (l1 l2 : List OrderRecord) (cid : String) (bad : OrderRecord)
    (hbad : parse bad.created_at = none) :
    check_request_limit parse now ceiling (l1 ++ bad :: l2) cid =
      check_request_limit parse now ceiling (l1 ++ l2) cid ∧
    ∀ e : String, failOpen (Except.error e) = true := by
  constructor
  · unfold check_request_limit failOpen check_request_limit_core
    have hc : countRecent parse (now - ONE_HOUR) cid (l1 ++ bad :: l2) =
        countRecent parse (now - ONE_HOUR) cid (l1 ++ l2) := by
      rw [countRecent_append, countRecent_append]
      have hb : recentHit parse (now - ONE_HOUR) cid bad = 0 := by
        unfold recentHit
        by_cases hcl : bad.client_id ≠ cid
        · simp [hcl]
        · simp [hcl, hbad]
      simp only [countRecent, hb]
      omega
    rw [hc]
  · intro e
    rfl

/-- Witness for C4 at a concrete malformed-timestamp record. -/
theorem rate_limit_fail_open_witness :
    check_request_limit toIntParse 4000 2 ([] ++ recBad :: []) cid7 =
      check_request_limit toIntParse 4000 2 ([] ++ []) cid7 ∧
    failOpen (Except.error ("boom")) = true := by
  have h := rate_limit_fail_open toIntParse 4000 2 [] [] cid7 recBad (by decide)
  exact ⟨h.1, h.2 ("boom")⟩

/-- C5 (code bug evidence): `save_orders` opens the data file in
truncating write mode and streams the serialised ledger into it, so a
write failure part-way leaves a partial file: the save reports failure,
the on-disk content differs from the prior content, and the outcome is
the same whatever the prior content was (the prior bytes are destroyed
by the truncation, not restored on failure). -/
theorem save_failure_destroys_prior :
    (save_orders_disk priorDisk diskChunks (some 1)).2 = false ∧
    (save_orders_disk priorDisk diskChunks (some 1)).1 ≠ priorDisk ∧
    (save_orders_disk priorDisk2 diskChunks (some 1)).1 =
      (save_orders_disk priorDisk diskChunks (some 1)).1 := by
  refine ⟨rfl, by decide, rfl⟩

/-- C2 counterexample: at a concrete complete `awaiting_photo` setup, a
successful valid-photo submission leaves the session state at
`awaiting_photo`; it is not reset to `none` as the claim states
(`handle_all_media` never writes `order_state` on this path). -/
theorem photo_submission_keeps_state :
    (handle_all_media sessPhoto true false cid7 userU nowT true true [recA]).1.order_state
      ≠ none := by
  decide

/-- C2 (amended): in state `awaiting_photo` with a current record in
status `waiting_req` whose fio, dob and tariff text are all present,
submitting a valid photo (with the operator forward and the ledger save
succeeding) forwards exactly one photo to the operator channel and sets
the current record's status to `waiting_payment`; the session is left
entirely unchanged — in particular `order_state` stays
`awaiting_photo` instead of being reset to `none`. -/
theorem photo_submission_behavior (sess : Session) (hasDocument : Bool)
    (cid username now : String) (orders : List OrderRecord) (r : OrderRecord)
    (hstate : sess.order_state = some AWAITING_PHOTO)
    (hcur : get_last_order_for_client orders cid = some r)
    (hstatus : r.status = ST_WAITING_REQ)
    (hfio : truthy r.fio = true) (hdob : truthy r.dob = true)
    (htar : truthy r.tariff_text = true) :
    (handle_all_media sess true hasDocument cid username now true true orders).1 = sess ∧
    (handle_all_media sess true hasDocument cid username now true true orders).2.2 =
      [Eff.photoToOperator cid, Eff.photoReceived cid] ∧
    (handle_all_media sess true hasDocument cid username now true true orders).2.2.countP
      (fun e => Eff.isPhotoToOperator e) = 1 ∧
    get_order_status
      (handle_all_media sess true hasDocument cid username now true true orders).2.1 cid
      = some ST_WAITING_PAYMENT := by
  have hstat : get_order_status orders cid = some ST_WAITING_REQ := by
    unfold get_order_status
    rw [hcur]
    simp [hstatus]
  have hupd := update_order_status_found now orders cid ST_WAITING_PAYMENT r hcur
  have hmain : handle_all_media sess true hasDocument cid username now true true orders
      = (sess, (update_order_status true now orders cid ST_WAITING_PAYMENT).1,
         [Eff.photoToOperator cid, Eff.photoReceived cid]) := by
    unfold handle_all_media
    rw [hstat, hstate]
    rw [if_pos ⟨rfl, rfl⟩]
    rw [hcur]
    simp [hfio, hdob, htar]
  refine ⟨by rw [hmain], by rw [hmain], by rw [hmain]; rfl, ?_⟩
  rw [hmain]
  unfold get_order_status
  rw [hupd.2]
  rfl

/-- Witness for C2 (amended) at the concrete complete setup. -/
theorem photo_submission_behavior_witness :
    get_order_status
      (handle_all_media sessPhoto true false cid7 userU nowT true true [recA]).2.1 cid7
      = some ST_WAITING_PAYMENT :=
  (photo_submission_behavior sessPhoto false cid7 userU nowT [recA] recA rfl
    (by decide) rfl (by decide) (by decide) (by decide)).2.2.2

/-- C6: receiving the date of birth in state `awaiting_dob` appends, in
the success case, exactly one record carrying status `waiting_req` and
the staged tariff key, fio and (stripped) dob, and advances the session
to `awaiting_photo`; when the ledger append fails, the session is
cleared to the idle state, the durable ledger gains no record, and the
only reply is the retry-later message. -/
theorem dob_append_behavior (sess : Session) (rawText cid username now : String)
    (saveOk : Bool) (orders : List OrderRecord)
    (h : sess.order_state = some AWAITING_DOB) :
    (saveOk = false →
      handle_user_input sess rawText cid username now saveOk orders =
        (emptySession, orders, [Eff.saveErrorRetry cid])) ∧
    (saveOk = true →
      handle_user_input sess rawText cid username now saveOk orders =
        ({ sess with dob := some (pyStrip rawText), order_state := some AWAITING_PHOTO },
         orders ++ [mkRequest cid username now sess.selected_tariff_key sess.fio
            (some (pyStrip rawText))],
         [Eff.askPhoto cid]) ∧
      (mkRequest cid username now sess.selected_tariff_key sess.fio
        (some (pyStrip rawText))).status = ST_WAITING_REQ) := by
  have hne : AWAITING_DOB ≠ AWAITING_FIO := by decide
  constructor
  · intro hs
    subst hs
    unfold handle_user_input
    rw [h]
    simp [hne, add_request]
  · intro hs
    subst hs
    refine ⟨?_, rfl⟩
    unfold handle_user_input
    rw [h]
    simp [hne, add_request]

/-- Witness for C6: the append-failure path at a concrete session. -/
theorem dob_append_behavior_witness :
    handle_user_input sessDob txtDob cid7 userU nowT false [] =
      (emptySession, [], [Eff.saveErrorRetry cid7]) :=
  (dob_append_behavior sessDob txtDob cid7 userU nowT false [] rfl).1 rfl

/-- C7: when the client-id argument of `/send_req` or `/confirm` does
not parse as an integer, or no record of that client exists, the
command leaves the ledger untouched, commits no transition, and its
entire output is a single diagnostic addressed to the operator chat. -/
theorem admin_commands_fail_graceful (a0 a1 : String) (rest : List String)
    (orders : List OrderRecord) (now : String) (saveOk sendOk : Bool)
    (h : pyInt a0 = none ∨
      ∃ n : Int, pyInt a0 = some n ∧
        get_last_order_for_client orders (toString n) = none) :
    (send_requisites (a0 :: a1 :: rest) orders now saveOk sendOk).1 = orders ∧
    (send_requisites (a0 :: a1 :: rest) orders now saveOk sendOk).2.1 = false ∧
    (∃ d, (send_requisites (a0 :: a1 :: rest) orders now saveOk sendOk).2.2 = [d] ∧
      d.isToOperator = true) ∧
    (confirm_payment (a0 :: a1 :: rest) orders now saveOk sendOk).1 = orders ∧
    (confirm_payment (a0 :: a1 :: rest) orders now saveOk sendOk).2.1 = false ∧
    (∃ d, (confirm_payment (a0 :: a1 :: rest) orders now saveOk sendOk).2.2 = [d] ∧
      d.isToOperator = true) := by
  rcases h with hp | ⟨n, hp, hn⟩
  · simp only [send_requisites, confirm_payment]
    rw [hp]
    exact ⟨rfl, rfl, ⟨Eff.opIdNotNumber, rfl, rfl⟩, rfl, rfl,
      ⟨Eff.opIdNotNumber, rfl, rfl⟩⟩
  · have h1 := update_order_status_not_found saveOk now orders (toString n)
      ST_WAITING_PAYMENT hn
    have h2 := update_order_status_not_found saveOk now orders (toString n)
      ST_COMPLETED hn
    simp only [send_requisites, confirm_payment]
    rw [hp]
    simp only [h1, h2]
    exact ⟨rfl, rfl, ⟨Eff.opOrderNotFound (toString n), rfl, rfl⟩, rfl, rfl,
      ⟨Eff.opOrderNotFound (toString n), rfl, rfl⟩⟩

/-- Witness for C7: a non-numeric client-id argument mutates nothing. -/
theorem admin_commands_fail_graceful_witness :
    (send_requisites (strAbc :: strX :: []) [recA] nowT true true).1 = [recA] ∧
    (confirm_payment (strAbc :: strX :: []) [recA] nowT true true).1 = [recA] := by
  have h := admin_commands_fail_graceful strAbc strX [] [recA] nowT true true
    (Or.inl (by decide))
  exact ⟨h.1, h.2.2.2.1⟩

/-- C8: once `/send_req` (respectively `/confirm`) has committed the
status transition, a failure to deliver the notification to the client
does not roll it back — the current record still shows
`waiting_payment` (respectively `completed`) — and the failure is
reported by a single message to the operator chat. -/
theorem admin_send_failure_no_rollback (a0 a1 : String)
    (orders : List OrderRecord) (now : String) (n : Int) (r : OrderRecord)
    (hp : pyInt a0 = some n)
    (hr : get_last_order_for_client orders (toString n) = some r) :
    ((send_requisites [a0, a1] orders now true false).2.1 = true ∧
     get_order_status (send_requisites [a0, a1] orders now true false).1
       (toString n) = some ST_WAITING_PAYMENT ∧
     (send_requisites [a0, a1] orders now true false).2.2 =
       [Eff.opClientSendFailed]) ∧
    ((confirm_payment [a0, a1] orders now true false).2.1 = true ∧
     get_order_status (confirm_payment [a0, a1] orders now true false).1
       (toString n) = some ST_COMPLETED ∧
     (confirm_payment [a0, a1] orders now true false).2.2 =
       [Eff.opClientSendFailed]) := by
  have h1 := update_order_status_found now orders (toString n)
    ST_WAITING_PAYMENT r hr
  have h2 := update_order_status_found now orders (toString n) ST_COMPLETED r hr
  constructor
  · have hmain : send_requisites [a0, a1] orders now true false =
        ((update_order_status true now orders (toString n) ST_WAITING_PAYMENT).1,
         true, [Eff.opClientSendFailed]) := by
      simp only [send_requisites]
      rw [hp]
      simp only [h1.1]
      rfl
    rw [hmain]
    refine ⟨rfl, ?_, rfl⟩
    unfold get_order_status
    rw [h1.2]
    rfl
  · have hmain : confirm_payment [a0, a1] orders now true false =
        ((update_order_status true now orders (toString n) ST_COMPLETED).1,
         true, [Eff.opClientSendFailed]) := by
      simp only [confirm_payment]
      rw [hp]
      simp only [h2.1]
      rfl
    rw [hmain]
    refine ⟨rfl, ?_, rfl⟩
    unfold get_order_status
    rw [h2.2]
    rfl

/-- Witness for C8 at a concrete one-record ledger and failing client
delivery. -/
theorem admin_send_failure_no_rollback_witness :
    get_order_status (send_requisites [cid7, strX] [recA] nowT true false).1
      (toString (7 : Int)) = some ST_WAITING_PAYMENT ∧
    get_order_status (confirm_payment [cid7, strX] [recA] nowT true false).1
      (toString (7 : Int)) = some ST_COMPLETED := by
  have h := admin_send_failure_no_rollback cid7 strX [recA] nowT 7 recA
    (by decide) (by decide)
  exact ⟨h.1.2.1, h.2.2.1⟩

/-- C9: for a client with a current record, two successive `/send_req`
commands both commit; after each, the current record's status is
`waiting_payment` and its `status_updated_at` equals that call's clock
reading, so under a monotone clock the timestamp advances
monotonically across the two calls. -/
theorem send_requisites_idempotent (a0 a1 : String) (orders : List OrderRecord)
    (n : Int) (r : OrderRecord) (now1 now2 : String)
    (parse : String → Option Int) (t1 t2 : Int) (sendOk1 sendOk2 : Bool)
    (hp : pyInt a0 = some n)
    (hr : get_last_order_for_client orders (toString n) = some r)
    (hp1 : parse now1 = some t1) (hp2 : parse now2 = some t2) (hle : t1 ≤ t2) :
    (send_requisites [a0, a1] orders now1 true sendOk1).2.1 = true ∧
    (send_requisites [a0, a1]
      (send_requisites [a0, a1] orders now1 true sendOk1).1 now2 true
      sendOk2).2.1 = true ∧
    get_last_order_for_client
      (send_requisites [a0, a1] orders now1 true sendOk1).1 (toString n)
      = some (withStatus r ST_WAITING_PAYMENT now1) ∧
    get_last_order_for_client
      (send_requisites [a0, a1]
        (send_requisites [a0, a1] orders now1 true sendOk1).1 now2 true
        sendOk2).1 (toString n)
      = some (withStatus r ST_WAITING_PAYMENT now2) ∧
    (parse now1 = some t1 ∧ parse now2 = some t2 ∧ t1 ≤ t2) := by
  have step : ∀ (l : List OrderRecord) (x : OrderRecord) (nw : String) (sOk : Bool),
      get_last_order_for_client l (toString n) = some x →
      (send_requisites [a0, a1] l nw true sOk).1 =
        (update_order_status true nw l (toString n) ST_WAITING_PAYMENT).1 ∧
      (send_requisites [a0, a1] l nw true sOk).2.1 = true := by
    intro l x nw sOk hx
    have hu := update_order_status_found nw l (toString n) ST_WAITING_PAYMENT x hx
    simp only [send_requisites]
    rw [hp]
    simp only [hu.1]
    cases sOk
    · exact ⟨rfl, rfl⟩
    · exact ⟨rfl, rfl⟩
  have hu1 := update_order_status_found now1 orders (toString n)
    ST_WAITING_PAYMENT r hr
  have s1 := step orders r now1 sendOk1 hr
  have hlast1 : get_last_order_for_client
      (send_requisites [a0, a1] orders now1 true sendOk1).1 (toString n)
      = some (withStatus r ST_WAITING_PAYMENT now1) := by
    rw [s1.1]
    exact hu1.2
  have s2 := step (send_requisites [a0, a1] orders now1 true sendOk1).1
    (withStatus r ST_WAITING_PAYMENT now1) now2 sendOk2 hlast1
  have hu2 := update_order_status_found now2
    (send_requisites [a0, a1] orders now1 true sendOk1).1 (toString n)
    ST_WAITING_PAYMENT (withStatus r ST_WAITING_PAYMENT now1) hlast1
  have hlast2 : get_last_order_for_client
      (send_requisites [a0, a1]
        (send_requisites [a0, a1] orders now1 true sendOk1).1 now2 true
        sendOk2).1 (toString n)
      = some (withStatus r ST_WAITING_PAYMENT now2) := by
    rw [s2.1]
    exact hu2.2
  exact ⟨s1.2, s2.2, hlast1, hlast2, hp1, hp2, hle⟩

/-- Witness for C9: two `/send_req` calls on a concrete ledger under a
monotone concrete clock. -/
theorem send_requisites_idempotent_witness :
    get_last_order_for_client
      (send_requisites [cid7, strX]
        (send_requisites [cid7, strX] [recA] nowT true true).1 nowT2 true
        true).1 (toString (7 : Int))
      = some (withStatus recA ST_WAITING_PAYMENT nowT2) :=
  (send_requisites_idempotent cid7 strX [recA] 7 recA nowT nowT2 toIntParse
    500 600 true true (by decide) (by decide) (by decide) (by decide)
    (by decide)).2.2.2.1

/-- C10: in the media handler, the ledger status is only written after
the forward to the operator channel has succeeded: when the forward
fails, both on the ID-photo path and on the payment-proof path, the
session and the ledger are left completely unchanged and the buyer
receives exactly the retry message. -/
theorem media_forward_failure_no_mutation (sess : Session)
    (hasPhoto hasDocument : Bool) (cid username now : String) (saveOk : Bool)
    (orders : List OrderRecord) (r : OrderRecord)
    (hr : get_last_order_for_client orders cid = some r) :
    (sess.order_state = some AWAITING_PHOTO → r.status = ST_WAITING_REQ →
     hasPhoto = true → truthy r.fio = true → truthy r.dob = true →
     truthy r.tariff_text = true →
      handle_all_media sess hasPhoto hasDocument cid username now false saveOk
        orders = (sess, orders, [Eff.idForwardFailedRetry cid])) ∧
    ((r.status = ST_WAITING_PAYMENT ∨ r.status = ST_WAITING_CONFIRM) →
     (hasPhoto = true ∨ hasDocument = true) →
      handle_all_media sess hasPhoto hasDocument cid username now false saveOk
        orders = (sess, orders, [Eff.receiptForwardFailedRetry cid])) := by
  have hstat : get_order_status orders cid = some r.status := by
    unfold get_order_status
    rw [hr]
    rfl
  constructor
  · intro hstate hstatus hph hfio hdob htar
    subst hph
    unfold handle_all_media
    rw [hstat, hstate, hstatus]
    rw [if_pos ⟨rfl, rfl⟩]
    rw [if_neg (by decide)]
    rw [hr]
    simp [hfio, hdob, htar]
  · intro hstatus hmedia
    unfold handle_all_media
    rw [hstat]
    rw [if_neg ?hguard]
    case hguard =>
      intro hand
      rcases hstatus with hs | hs <;> rw [hs] at hand <;>
        exact absurd hand.2 (by simp [ST_WAITING_PAYMENT, ST_WAITING_CONFIRM,
          ST_WAITING_REQ])
    rw [if_pos ?hst]
    case hst =>
      rcases hstatus with hs | hs
      · exact Or.inl (by rw [hs])
      · exact Or.inr (by rw [hs])
    rw [if_neg ?hmed]
    case hmed =>
      intro hand
      rcases hmedia with hm | hm
      · rw [hm] at hand
        exact absurd hand.1 (by decide)
      · rw [hm] at hand
        exact absurd hand.2 (by decide)
    rw [if_neg (by decide)]

/-- Witness for C10: a failing forward on the ID-photo path at a
concrete ledger. -/
theorem media_forward_failure_no_mutation_witness :
    handle_all_media sessPhoto true false cid7 userU nowT false true [recA] =
      (sessPhoto, [recA], [Eff.idForwardFailedRetry cid7]) :=
  (media_forward_failure_no_mutation sessPhoto true false cid7 userU nowT true
    [recA] recA (by decide)).1 rfl rfl rfl (by decide) (by decide) (by decide)

end Bot
